import Mathlib

/-!
Verification of the replication subsystem of `src/unifier/unifier.py`
(class `Unifier`, methods `replicate` and `_replicate_native`).

Python strings are embedded as `List Char`; the helpers below model the
exact Python string operations the source uses (`startswith`, `lstrip`,
`split('/', 1)`, slicing, `os.path.join`, `os.path.dirname`) and the
standard-library glob matcher `fnmatch.fnmatch` (POSIX semantics, where
`os.path.normcase` is the identity).
-/

namespace DataUnifier

/-- Characters of a Python string. -/
abbrev Chars := List Char

/-- Python `s.startswith(pat)`: `startsWithCh pat s` is true when `pat` is an
initial run of `s`. -/
def startsWithCh : Chars → Chars → Bool
  | [], _ => true
  | _ :: _, [] => false
  | p :: ps, c :: cs => (p == c) && startsWithCh ps cs

/-- Python `s.lstrip("/")`: removes every leading `'/'`. -/
def lstripSlash : Chars → Chars
  | [] => []
  | c :: cs => if c = '/' then lstripSlash cs else c :: cs

/-- Scan for the `']'` that closes a glob character class, returning the
characters before it and the rest after it; `none` when no `']'` occurs
(then `fnmatch` treats the `'['` as a literal character). -/
def scanClose : Chars → Option (Chars × Chars)
  | [] => none
  | ']' :: cs => some ([], cs)
  | c :: cs =>
    match scanClose cs with
    | none => none
    | some (body, rest) => some (c :: body, rest)

/-- Split the characters following a `'['` into a character class, per
`fnmatch.translate`: a leading `'!'` negates; a `']'` directly after the
`'['` (or after `'[!'`) is a literal member of the class. Returns
`(negated, class body, rest of the pattern)`. -/
def splitClass (cs : Chars) : Option (Bool × Chars × Chars) :=
  match cs with
  | '!' :: ']' :: rest =>
    match scanClose rest with
    | none => none
    | some (body, r) => some (true, ']' :: body, r)
  | '!' :: rest =>
    match scanClose rest with
    | none => none
    | some (body, r) => some (true, body, r)
  | ']' :: rest =>
    match scanClose rest with
    | none => none
    | some (body, r) => some (false, ']' :: body, r)
  | _ =>
    match scanClose cs with
    | none => none
    | some (body, r) => some (false, body, r)

/-- Membership of a character in a glob class body, with `a-b` ranges; a
`'-'` at the start or end of the body is a literal, as in a regex set. -/
def classMatch (body : Chars) (c : Char) : Bool :=
  match body with
  | [] => false
  | a :: '-' :: b :: rest =>
    (decide (a ≤ c) && decide (c ≤ b)) || classMatch rest c
  | a :: rest => (a == c) || classMatch rest c

/-- Python `fnmatch.fnmatch(s, p)` on POSIX: full-string glob match where
`*` matches any (possibly empty) run of characters including `'/'`, `?`
matches exactly one character, `[...]`/`[!...]` match one character against
a class, and every other character matches itself. `globMatch p s` takes
the pattern first. -/
def globMatch (p s : Chars) : Bool :=
  match p, s with
  | [], s => s.isEmpty
  | '*' :: ps, s =>
    globMatch ps s ||
      (match s with
       | [] => false
       | _ :: cs => globMatch ('*' :: ps) cs)
  | '?' :: ps, s =>
    (match s with
     | [] => false
     | _ :: cs => globMatch ps cs)
  | '[' :: ps, s =>
    (match splitClass ps with
     | none =>
       (match s with
        | [] => false
        | c :: cs => (c == '[') && globMatch ps cs)
     | some (neg, body, rest) =>
       (match s with
        | [] => false
        | c :: cs => (neg != classMatch body c) && globMatch rest cs))
  | ch :: ps, s =>
    (match s with
     | [] => false
     | c :: cs => (c == ch) && globMatch ps cs)
termination_by (s.length, p.length)
decreasing_by
  all_goals simp_wf
  all_goals first
    | exact Prod.Lex.right _ (by omega)
    | exact Prod.Lex.left _ _ (by omega)

/-- The pattern list built by `_replicate_native` (unifier.py lines
480-484): each server-supplied folder pattern has its leading `'/'`
characters stripped when it starts with one; nothing else is rewritten. -/
def buildMatchPats (folders : List Chars) : List Chars :=
  folders.map (fun f => if startsWithCh ['/'] f then lstripSlash f else f)

/-- The filter applied to each relative key (unifier.py lines 512-514): a
key is kept when the pattern list is empty or `fnmatch` accepts it for at
least one pattern. -/
def keptByFilter (pats : List Chars) (rel : Chars) : Bool :=
  pats.isEmpty || pats.any (fun p => globMatch p rel)

/-- Python `data_path.split('/', 1)`: the part before the first `'/'`, and
the part after it (`none` when the string has no `'/'`). -/
def splitFirst : Chars → Chars × Option Chars
  | [] => ([], none)
  | c :: cs =>
    if c = '/' then ([], some cs)
    else
      match splitFirst cs with
      | (a, b) => (c :: a, b)

/-- The key-head normalization of `_replicate_native` (unifier.py lines
477-478): a non-empty key head not already ending in `'/'` gets a `'/'`
appended before listing. -/
def normPfx (p0 : Chars) : Chars :=
  if !p0.isEmpty && !(p0.getLast? == some '/') then p0 ++ ['/'] else p0

/-- Bucket and listing key head derived in `_replicate_native` (unifier.py
lines 474-478): split the data path at its first `'/'`; the part before is
the bucket, the remainder (empty when there is none), normalized by
`normPfx`, is the key head. -/
def bucketAndPfx (dataPath : Chars) : Chars × Chars :=
  ((splitFirst dataPath).1, normPfx ((splitFirst dataPath).2.getD []))

/-- Python `key[len(prefix):]` (unifier.py line 508): the relative key. -/
def relKey (pfx key : Chars) : Chars := key.drop pfx.length

/-- Python `os.path.join(a, b)` for exactly two POSIX components: an
absolute `b` replaces `a`; otherwise `a` and `b` are joined with a single
`'/'` unless `a` is empty or already ends in one. -/
def osPathJoin (a b : Chars) : Chars :=
  if startsWithCh ['/'] b then b
  else if a.isEmpty then b
  else if a.getLast? == some '/' then a ++ b
  else a ++ '/' :: b

/-- Python `s.rstrip("/")`: removes every trailing `'/'`. -/
def rstripSlash (s : Chars) : Chars := (lstripSlash s.reverse).reverse

/-- The characters of `p` up to and including its last `'/'`; empty when
`p` has no `'/'`. -/
def takeToLastSlash : Chars → Chars
  | [] => []
  | c :: cs =>
    match takeToLastSlash cs with
    | [] => if c = '/' then ['/'] else []
    | rest => c :: rest

/-- Python `os.path.dirname(p)` (POSIX): everything before the last `'/'`,
with trailing slashes stripped unless the head is all slashes. -/
def dirname (p : Chars) : Chars :=
  let head := takeToLastSlash p
  if !head.isEmpty && head.any (fun c => c ≠ '/') then rstripSlash head else head

/-- One `(bucket_name, key, local_file)` triple of `download_tasks`
(unifier.py line 518). -/
structure DownloadTask where
  bucket : Chars
  key : Chars
  localFile : Chars
deriving DecidableEq, Repr

/-- The per-object body of the planning loop (unifier.py lines 502-518):
skip a key that does not start with the listing key head, skip an empty
relative key, skip a relative key the filter rejects; otherwise produce a
task whose destination is `os.path.join(target_location, rel_path)`. -/
def taskFor (bucket pfx target : Chars) (pats : List Chars) (key : Chars) :
    Option DownloadTask :=
  if !startsWithCh pfx key then none
  else
    let rel := relKey pfx key
    if rel.isEmpty then none
    else if !keptByFilter pats rel then none
    else some { bucket := bucket, key := key, localFile := osPathJoin target rel }

/-- The nested planning loop of `_replicate_native` (unifier.py lines
499-518): pages in order, objects of each page in order, appending each
accepted task to the accumulated `download_tasks` list. A page without a
`Contents` entry contributes nothing and is modelled as an empty page. -/
def planTasks (bucket pfx target : Chars) (pats : List Chars)
    (pages : List (List Chars)) : List DownloadTask :=
  pages.foldl
    (fun acc page =>
      page.foldl
        (fun acc2 key =>
          match taskFor bucket pfx target pats key with
          | none => acc2
          | some t => acc2 ++ [t])
        acc)
    []

/-- The boto3 `TransferConfig` fields set by `_replicate_native`. -/
structure TransferConfig where
  multipart_threshold : Nat
  max_concurrency : Nat
deriving DecidableEq, Repr

/-- The transfer configuration built at unifier.py lines 489-492 and passed
to every `download_file` call (line 532): `multipart_threshold=1024 * 25`
(the adjacent comment says 25MB) and `max_concurrency=10`. -/
def transfer_config : TransferConfig :=
  { multipart_threshold := 1024 * 25, max_concurrency := 10 }

/-- A filesystem effect of the native executor: `os.makedirs(...,
exist_ok=True)` on a destination parent, or a completed destination file
write. The executor has no effect that removes or rewrites an existing
destination file after a failure (there is no rollback code). -/
inductive FsEvent where
  | mkdirs (dir : Chars)
  | wroteFile (file : Chars)
deriving DecidableEq, Repr

/-- Terminal outcome of `_replicate_native`: the boto3-missing early return
(lines 459-462), the empty-plan early return (lines 521-523), the success
print (line 543), or the catch-all failure report (lines 544-547) for the
first download whose exception `executor.map` surfaces. -/
inductive NativeOutcome where
  | sdkMissing
  | nothingToDo
  | completed (total : Nat)
  | failed (failingKey : Chars)
deriving DecidableEq, Repr

/-- What one native run did: whether `list_objects_v2` pagination was
performed, which keys `download_file` was invoked for (in order), the
filesystem effects, the completed-file counter, and the outcome. -/
structure NativeTrace where
  listedStorage : Bool
  attempts : List Chars
  events : List FsEvent
  completedCount : Nat
  outcome : NativeOutcome
deriving DecidableEq, Repr

/-- The download loop (unifier.py lines 527-541), sequentialised in task
order: `executor.map` yields results in submission order, so the exception
the consuming loop observes is that of the first failing task in plan
order. Each task first creates its destination parent directory, then
either completes its file write (success, counter incremented) or stops
the run carrying its key (`ok` says whether a task's download succeeds).
Nothing is ever deleted, and no task is attempted twice. -/
def runDownloads (ok : DownloadTask → Bool) :
    List DownloadTask → List Chars → List FsEvent → Nat →
      Option Chars × List Chars × List FsEvent × Nat
  | [], att, evs, done => (none, att, evs, done)
  | t :: ts, att, evs, done =>
    if ok t then
      runDownloads ok ts (att ++ [t.key])
        (evs ++ [FsEvent.mkdirs (dirname t.localFile), FsEvent.wroteFile t.localFile])
        (done + 1)
    else
      (some t.key, att ++ [t.key], evs ++ [FsEvent.mkdirs (dirname t.localFile)], done)

/-- The transfer phase of `_replicate_native` (unifier.py lines 520-547):
an empty plan returns at once ("No files found to replicate") with no pool
started and no filesystem effect; otherwise the downloads run and the run
ends completed, or failed at the first surfaced download exception. -/
def execTasks (ok : DownloadTask → Bool) (tasks : List DownloadTask) : NativeTrace :=
  if tasks.length = 0 then
    { listedStorage := true, attempts := [], events := [], completedCount := 0,
      outcome := NativeOutcome.nothingToDo }
  else
    match runDownloads ok tasks [] [] 0 with
    | (none, att, evs, done) =>
      { listedStorage := true, attempts := att, events := evs, completedCount := done,
        outcome := NativeOutcome.completed tasks.length }
    | (some k, att, evs, done) =>
      { listedStorage := true, attempts := att, events := evs, completedCount := done,
        outcome := NativeOutcome.failed k }

/-- The whole of `_replicate_native` (unifier.py lines 446-547): when boto3
is not importable it logs an error and returns normally, before any client
is built, any listing is made or any file is touched; otherwise it derives
bucket and key head from the data path, builds the filter patterns, plans
over the listed pages and runs the transfer phase. -/
def replicateNative (boto3Avail : Bool) (ok : DownloadTask → Bool)
    (dataPath target : Chars) (folders : List Chars)
    (pages : List (List Chars)) : NativeTrace :=
  if !boto3Avail then
    { listedStorage := false, attempts := [], events := [], completedCount := 0,
      outcome := NativeOutcome.sdkMissing }
  else
    let bp := bucketAndPfx dataPath
    execTasks ok (planTasks bp.1 bp.2 target (buildMatchPats folders) pages)

/-- The `data` object of the replicate response (unifier.py lines 364,
371-372); each field is `none` when absent or null. -/
structure DataField where
  access_key_id : Option Chars
  secret_access_key : Option Chars
deriving DecidableEq, Repr

/-- The JSON body of a replicate response (unifier.py lines 362-376).
`data := none` models a `data` entry that is absent, null or an empty
object (all falsy for the `if not data` check at line 365); `error` is the
payload read by the non-200 branch (line 354). -/
structure RespJson where
  error : Option Chars
  data : Option DataField
  data_path : Option Chars
  folders : List Chars
  endpoint : Option Chars
  region : Option Chars
deriving DecidableEq, Repr

/-- Result of the credential POST (unifier.py line 351): a response with a
status code and JSON body, or a raised `requests.exceptions.RequestException`
(caught at line 433). -/
inductive HttpResult where
  | ok (status : Nat) (body : RespJson)
  | requestFailed (msg : Chars)
deriving DecidableEq, Repr

/-- The error classes of the specification's taxonomy, tagged with the
message the source logs and prints: `authError` for the non-200 branch
(lines 352-360), `protocolError` for a missing `data` object or missing
credentials or data path (lines 364-369, 378-382), `networkError` for a
transport failure (lines 433-436). -/
inductive ReplicateError where
  | authError (msg : Chars)
  | protocolError (msg : Chars)
  | networkError (msg : Chars)
deriving DecidableEq, Repr

/-- The credential and location bundle `replicate` extracts on success
(unifier.py lines 362-388), with the data path already normalized. -/
structure Manifest where
  access_key_id : Chars
  secret_access_key : Chars
  data_path : Chars
  folders : List Chars
  endpoint : Chars
  region : Chars
deriving DecidableEq, Repr

/-- Python truthiness of an optional string: absent, null and empty are
falsy (`if not (access_key_id and secret_access_key and data_path)`). -/
def truthyStr : Option Chars → Bool
  | none => false
  | some s => !s.isEmpty

def unknownErrorMsg : Chars := "Unknown error".toList

def missingDataMsg : Chars := "Unifier replicate response missing data field".toList

def missingCredsMsg : Chars := "Unifier replicate missing required credentials or path".toList

def defaultEndpoint : Chars := "https://s3.wasabisys.com".toList

def defaultRegion : Chars := "us-east-1".toList

def s3Scheme : Chars := ['s', '3', ':', '/', '/']

def s3aScheme : Chars := ['s', '3', 'a', ':', '/', '/']

/-- The scheme stripping at unifier.py lines 384-388: drop a leading
`s3://` (5 characters) or, failing that, a leading `s3a://` (6
characters); otherwise leave the data path unchanged. -/
def normalizeDataPath (p : Chars) : Chars :=
  if startsWithCh s3Scheme p then p.drop 5
  else if startsWithCh s3aScheme p then p.drop 6
  else p

/-- The credential-fetch phase of `replicate` (unifier.py lines 349-388):
a transport failure is a network error; a non-200 status reports the error
payload (or a default message); a 200 response without a truthy `data`
object, or without truthy credentials and data path, is a protocol error;
otherwise the manifest is extracted, with endpoint and region defaults and
the data path normalized. -/
def fetchManifest (resp : HttpResult) : Except ReplicateError Manifest :=
  match resp with
  | HttpResult.requestFailed m => Except.error (ReplicateError.networkError m)
  | HttpResult.ok status body =>
    if status ≠ 200 then
      Except.error (ReplicateError.authError (body.error.getD unknownErrorMsg))
    else
      match body.data with
      | none => Except.error (ReplicateError.protocolError missingDataMsg)
      | some d =>
        if truthyStr d.access_key_id && truthyStr d.secret_access_key
            && truthyStr body.data_path then
          Except.ok
            { access_key_id := d.access_key_id.getD []
              secret_access_key := d.secret_access_key.getD []
              data_path := normalizeDataPath (body.data_path.getD [])
              folders := body.folders
              endpoint := body.endpoint.getD defaultEndpoint
              region := body.region.getD defaultRegion }
        else
          Except.error (ReplicateError.protocolError missingCredsMsg)

/-- How a replication run ended: failed during credential fetch (before
any listing, delegated-tool invocation or transfer), ran the delegated
rclone path, or ran the native path with the given trace. -/
inductive RunPath where
  | failedFetch (e : ReplicateError)
  | delegated
  | native (t : NativeTrace)
deriving DecidableEq, Repr

/-- Result of one `replicate` call: whether the fallback message "Rclone is
not installed. Falling back to native Python replication." was logged
(unifier.py lines 344-345), and which path the run took. -/
structure RunResult where
  fallbackLogged : Bool
  path : RunPath
deriving DecidableEq, Repr

/-- The orchestration of `replicate` (unifier.py lines 296-444): the
fallback reason is logged exactly when rclone was requested but absent;
`using_rclone = use_rclone and (rclone_path is not None)` (line 342)
selects the branch at line 390 once the manifest is extracted; a
credential-fetch failure returns before that branch. -/
def replicate (useRclone rclonePresent boto3Avail : Bool)
    (ok : DownloadTask → Bool) (resp : HttpResult)
    (target : Chars) (pages : List (List Chars)) : RunResult :=
  let fb := useRclone && !rclonePresent
  match fetchManifest resp with
  | Except.error e => { fallbackLogged := fb, path := RunPath.failedFetch e }
  | Except.ok m =>
    if useRclone && rclonePresent then
      { fallbackLogged := fb, path := RunPath.delegated }
    else
      { fallbackLogged := fb,
        path := RunPath.native
          (replicateNative boto3Avail ok m.data_path target m.folders pages) }

/-- Follows the claim C1's words, for comparison with the source's filter:
glob semantics in which `**` matches any run of characters (all nested
depths) while a single `*` matches only a run of characters within one
path segment (it cannot cross `'/'`); other characters match themselves. -/
def specGlob (p s : Chars) : Bool :=
  match p, s with
  | [], s => s.isEmpty
  | '*' :: '*' :: ps, s =>
    specGlob ps s ||
      (match s with
       | [] => false
       | _ :: cs => specGlob ('*' :: '*' :: ps) cs)
  | '*' :: ps, s =>
    specGlob ps s ||
      (match s with
       | [] => false
       | c :: cs => (c != '/') && specGlob ('*' :: ps) cs)
  | ch :: ps, s =>
    (match s with
     | [] => false
     | c :: cs => (c == ch) && specGlob ps cs)
termination_by (s.length, p.length)
decreasing_by
  all_goals simp_wf
  all_goals first
    | exact Prod.Lex.right _ (by omega)
    | exact Prod.Lex.left _ _ (by omega)

/-- Follows the claim C1's words, for comparison with the source's filter:
strip any leading path separator, and rewrite a trailing single-level
wildcard to a recursive wildcard (as the rclone path does at unifier.py
lines 414-415: append one more `'*'`). -/
def specRewrite (p : Chars) : Chars :=
  let q := lstripSlash p
  match q.getLast? with
  | some '*' => q ++ ['*']
  | _ => q

/-- Follows the claim C1's words, for comparison with the source's filter:
true exactly when the relative key matches at least one pattern (logical
OR) under the rewritten-pattern semantics of `specGlob`. -/
def specFilterPred (folders : List Chars) (rel : Chars) : Bool :=
  folders.any (fun f => specGlob (specRewrite f) rel)

/-- Follows the claim C6's words, for comparison with the source's nested
loop: the tasks of one page are the accepted objects of that page, in
page order. -/
def planPageSpec (bucket pfx target : Chars) (pats : List Chars)
    (page : List Chars) : List DownloadTask :=
  page.filterMap (taskFor bucket pfx target pats)

/-- Whether a string contains two consecutive `'/'` characters. -/
def hasDoubleSep : Chars → Bool
  | [] => false
  | c :: cs =>
    (match cs with
     | [] => false
     | d :: _ => (c == '/') && (d == '/')) || hasDoubleSep cs

/-- The error class a failed credential fetch must carry, by source
branch: a transport failure is a network error; a non-200 response is the
auth-error branch carrying the error payload (or the default message); a
200 response fails only as a protocol error, for a missing data object or
for missing credentials or data path. -/
def errClassOf (resp : HttpResult) (e : ReplicateError) : Prop :=
  match resp with
  | HttpResult.requestFailed m => e = ReplicateError.networkError m
  | HttpResult.ok status body =>
    if status = 200 then
      (e = ReplicateError.protocolError missingDataMsg ∧ body.data = none) ∨
        e = ReplicateError.protocolError missingCredsMsg
    else e = ReplicateError.authError (body.error.getD unknownErrorMsg)

/-- A concrete two-task plan used to instantiate the executor theorems. -/
def tasksC3 : List DownloadTask :=
  [{ bucket := ['b'], key := ['k', '1'], localFile := ['t', '/', 'k', '1'] },
   { bucket := ['b'], key := ['k', '2'], localFile := ['t', '/', 'k', '2'] }]

/-- A download oracle under which only the key `k1` succeeds. -/
def okC3 : DownloadTask → Bool := fun t => t.key == ['k', '1']

/-- A download oracle under which every download succeeds. -/
def okTrue : DownloadTask → Bool := fun _ => true

/-- A concrete transport failure of the credential fetch. -/
def respC4 : HttpResult := HttpResult.requestFailed ['t', 'o']

/-- A concrete successful credential-fetch response. -/
def respC5 : HttpResult :=
  HttpResult.ok 200
    { error := none,
      data := some { access_key_id := some ['a'], secret_access_key := some ['s'] },
      data_path := some ['b', '/', 'p'],
      folders := [],
      endpoint := none,
      region := none }

/-- The manifest `respC5` extracts to. -/
def manifestC5 : Manifest :=
  { access_key_id := ['a'], secret_access_key := ['s'],
    data_path := ['b', '/', 'p'], folders := [],
    endpoint := defaultEndpoint, region := defaultRegion }

/-! ## General lemmas about the string helpers -/

theorem startsWithCh_iff (pre s : Chars) :
    startsWithCh pre s = true ↔ ∃ rest, s = pre ++ rest := by
  induction pre generalizing s with
  | nil =>
    simp [startsWithCh]
  | cons p ps ih =>
    cases s with
    | nil =>
      simp [startsWithCh]
    | cons c cs =>
      simp only [startsWithCh, Bool.and_eq_true, beq_iff_eq, ih, List.cons_append]
      constructor
      · rintro ⟨rfl, rest, rfl⟩
        exact ⟨rest, rfl⟩
      · rintro ⟨rest, heq⟩
        injection heq with h1 h2
        exact ⟨h1.symm, rest, h2⟩

theorem startsWithCh_append (pre rest : Chars) :
    startsWithCh pre (pre ++ rest) = true :=
  (startsWithCh_iff pre (pre ++ rest)).mpr ⟨rest, rfl⟩

theorem startsWithCh_drop (pre s : Chars) (h : startsWithCh pre s = true) :
    pre ++ s.drop pre.length = s := by
  rcases (startsWithCh_iff pre s).mp h with ⟨rest, rfl⟩
  rw [List.drop_left]

theorem hasDoubleSep_append (xs ys : Chars) :
    hasDoubleSep (xs ++ '/' :: '/' :: ys) = true := by
  induction xs with
  | nil => simp [hasDoubleSep]
  | cons c cs ih => simp [hasDoubleSep, ih]

theorem splitFirst_no_slash (dp : Chars) (h : '/' ∉ dp) :
    splitFirst dp = (dp, none) := by
  induction dp with
  | nil => rfl
  | cons c cs ih =>
    simp only [List.mem_cons, not_or] at h
    simp [splitFirst, Ne.symm h.1, ih h.2]

theorem normPfx_getLast (p0 : Chars) (h : normPfx p0 ≠ []) :
    (normPfx p0).getLast? = some '/' := by
  cases hpe : p0.isEmpty with
  | true =>
    exact absurd (by simp [normPfx, hpe, List.isEmpty_iff.mp hpe]) h
  | false =>
    cases hbe : p0.getLast? == some '/' with
    | true =>
      have heq : normPfx p0 = p0 := by simp [normPfx, hpe, hbe]
      rw [heq]
      exact beq_iff_eq.mp hbe
    | false =>
      have heq : normPfx p0 = p0 ++ ['/'] := by simp [normPfx, hpe, hbe]
      rw [heq, List.getLast?_concat]

/-! ## The claims -/

/-- Claim C2 is a code bug: the transfer configuration built for every
download sets `multipart_threshold` to `1024 * 25` = 25600 bytes, not the
25 MiB (26214400 bytes) the adjacent source comment and the specification
state, while `max_concurrency` is indeed 10; a 1 MiB object already
exceeds the code's threshold though it is far below 25 MiB. -/
theorem c2_transfer_config_values :
    transfer_config.multipart_threshold = 25600 ∧
    transfer_config.max_concurrency = 10 ∧
    transfer_config.multipart_threshold ≠ 26214400 ∧
    transfer_config.multipart_threshold < 1048576 ∧ 1048576 < 26214400 :=
  ⟨rfl, rfl, by decide, by decide, by decide⟩

/-- Claim C7: a data path beginning with `s3://` or `s3a://` is normalized
to the same string with exactly that leading scheme removed, and a data
path with neither scheme is left untouched. -/
theorem c7_scheme_strip (p rest : Chars) :
    normalizeDataPath (s3Scheme ++ rest) = rest ∧
    normalizeDataPath (s3aScheme ++ rest) = rest ∧
    (startsWithCh s3Scheme p = true → s3Scheme ++ normalizeDataPath p = p) ∧
    (startsWithCh s3aScheme p = true → s3aScheme ++ normalizeDataPath p = p) ∧
    (startsWithCh s3Scheme p = false → startsWithCh s3aScheme p = false →
      normalizeDataPath p = p) := by
  have hdisj : ∀ r : Chars, startsWithCh s3Scheme (s3aScheme ++ r) = false := by
    intro r
    show startsWithCh s3Scheme ('s' :: '3' :: 'a' :: ':' :: '/' :: '/' :: r) = false
    simp [s3Scheme, startsWithCh]
  refine ⟨?_, ?_, ?_, ?_, ?_⟩
  · rw [normalizeDataPath, if_pos (startsWithCh_append s3Scheme rest)]
    exact List.drop_left s3Scheme rest
  · rw [normalizeDataPath]
    simp only [hdisj rest, if_false, Bool.false_eq_true]
    rw [if_pos (startsWithCh_append s3aScheme rest)]
    exact List.drop_left s3aScheme rest
  · intro h
    rw [normalizeDataPath, if_pos h]
    exact startsWithCh_drop s3Scheme p h
  · intro h
    have h1 : startsWithCh s3Scheme p = false := by
      rcases (startsWithCh_iff _ _).mp h with ⟨r, rfl⟩
      exact hdisj r
    rw [normalizeDataPath]
    simp only [h1, if_false, Bool.false_eq_true]
    rw [if_pos h]
    exact startsWithCh_drop s3aScheme p h
  · intro h1 h2
    rw [normalizeDataPath]
    simp [h1, h2]

/-- Claim C8: an empty task list makes the native executor return at once
with the "nothing to do" outcome, zero completed files, no download
attempted (no worker pool) and no filesystem effect, directory creation
included. -/
theorem c8_empty_plan (ok : DownloadTask → Bool) :
    execTasks ok []
      = { listedStorage := true, attempts := [], events := [],
          completedCount := 0, outcome := NativeOutcome.nothingToDo } := rfl

/-- Claim C10: when boto3 is not importable, the native path returns one
step in, without contacting storage (`listedStorage = false`), without any
download attempt or filesystem effect, and without raising; a full run
that fell back to the native path then ends with this silent trace, not
with a surfaced failure. -/
theorem c10_sdk_missing (ok : DownloadTask → Bool) (dataPath target : Chars)
    (folders : List Chars) (pages : List (List Chars)) :
    replicateNative false ok dataPath target folders pages
      = { listedStorage := false, attempts := [], events := [],
          completedCount := 0, outcome := NativeOutcome.sdkMissing } ∧
    (∀ useRclone rclonePresent resp m,
      fetchManifest resp = Except.ok m →
      (useRclone && rclonePresent) = false →
      replicate useRclone rclonePresent false ok resp target pages
        = { fallbackLogged := useRclone && !rclonePresent,
            path := RunPath.native
              { listedStorage := false, attempts := [], events := [],
                completedCount := 0, outcome := NativeOutcome.sdkMissing } }) := by
  refine ⟨rfl, ?_⟩
  intro useRclone rclonePresent resp m hm hsel
  rw [replicate, hm]
  simp only [hsel, if_false, Bool.false_eq_true]
  rfl

/-- Claim C9 as frozen is false: for the data path `bucket` (no `'/'`),
the derived listing key head is empty, and a listed key `/x` yields a
planned task whose relative key begins with a path separator (its
destination even escapes the target directory, `os.path.join` discarding
`tgt` for the absolute `/x`). -/
theorem c9_counterexample :
    bucketAndPfx ['b', 'u', 'c', 'k', 'e', 't'] = (['b', 'u', 'c', 'k', 'e', 't'], []) ∧
    startsWithCh ['/'] (relKey (bucketAndPfx ['b', 'u', 'c', 'k', 'e', 't']).2 ['/', 'x']) = true ∧
    planTasks ['b', 'u', 'c', 'k', 'e', 't'] [] ['t', 'g', 't'] [] [[['/', 'x']]]
      = [{ bucket := ['b', 'u', 'c', 'k', 'e', 't'], key := ['/', 'x'],
           localFile := ['/', 'x'] }] := by
  refine ⟨by decide, by decide, by decide⟩

/-- Claim C9 (amended): the native path splits the data path at its first
`'/'` (no `'/'` means the whole string is the bucket and the key head is
empty), and a non-empty key head is normalized to end with `'/'` before
listing; the relative key of a planned object can begin with a path
separator only in the degenerate cases where the key head is empty and the
key itself begins with one, or the key contains a doubled separator. -/
theorem c9_amended (dp : Chars) :
    ('/' ∉ dp → bucketAndPfx dp = (dp, [])) ∧
    ((bucketAndPfx dp).2 ≠ [] → (bucketAndPfx dp).2.getLast? = some '/') ∧
    (∀ key, startsWithCh (bucketAndPfx dp).2 key = true →
      startsWithCh ['/'] (relKey (bucketAndPfx dp).2 key) = true →
      ((bucketAndPfx dp).2 = [] ∧ startsWithCh ['/'] key = true) ∨
        hasDoubleSep key = true) := by
  refine ⟨?_, fun h => normPfx_getLast _ h, ?_⟩
  · intro h
    have hs := splitFirst_no_slash dp h
    simp [bucketAndPfx, hs, normPfx]
  · intro key hks hrel
    by_cases hq : (bucketAndPfx dp).2 = []
    · left
      refine ⟨hq, ?_⟩
      rw [hq] at hrel
      simpa [relKey] using hrel
    · right
      have hlast : (bucketAndPfx dp).2.getLast? = some '/' := normPfx_getLast _ hq
      rcases (startsWithCh_iff _ key).mp hks with ⟨rest, rfl⟩
      have hrel' : relKey (bucketAndPfx dp).2 ((bucketAndPfx dp).2 ++ rest) = rest := by
        unfold relKey
        rw [List.drop_left]
      rw [hrel'] at hrel
      cases rest with
      | nil => simp [startsWithCh] at hrel
      | cons r rs =>
        have hr : '/' = r := by simpa [startsWithCh] using hrel
        subst hr
        have hqeq : (bucketAndPfx dp).2.dropLast ++ ['/'] = (bucketAndPfx dp).2 := by
          have hd := List.dropLast_append_getLast hq
          have hg : (bucketAndPfx dp).2.getLast hq = '/' := by
            have hgl := List.getLast?_eq_getLast (bucketAndPfx dp).2 hq
            rw [hgl] at hlast
            exact Option.some.inj hlast
          rw [hg] at hd
          exact hd
        rw [← hqeq, List.append_assoc]
        exact hasDoubleSep_append (bucketAndPfx dp).2.dropLast rs

theorem buildMatchPats_eq (folders : List Chars) :
    buildMatchPats folders = folders.map lstripSlash := by
  unfold buildMatchPats
  congr 1
  funext f
  cases f with
  | nil => rfl
  | cons c cs =>
    by_cases h : c = '/'
    · subst h
      simp [startsWithCh, lstripSlash]
    · simp [startsWithCh, lstripSlash, h, Ne.symm h]

theorem keptByFilter_build_iff (folders : List Chars) (rel : Chars) :
    keptByFilter (buildMatchPats folders) rel = true ↔
      folders = [] ∨ ∃ f, f ∈ folders ∧ globMatch (lstripSlash f) rel = true := by
  rw [buildMatchPats_eq]
  simp [keptByFilter, List.isEmpty_iff, List.any_map, List.any_eq_true, Function.comp]

theorem globMatch_star (ps s : Chars) :
    globMatch ('*' :: ps) s = true ↔
      ∃ s1 s2, s = s1 ++ s2 ∧ globMatch ps s2 = true := by
  induction s with
  | nil =>
    have hstep : globMatch ('*' :: ps) [] = (globMatch ps [] || false) := by
      simp [globMatch]
    constructor
    · intro h
      rw [hstep, Bool.or_false] at h
      exact ⟨[], [], rfl, h⟩
    · rintro ⟨s1, s2, heq, hm⟩
      rcases List.append_eq_nil.mp heq.symm with ⟨rfl, rfl⟩
      rw [hstep, Bool.or_false]
      exact hm
  | cons c cs ih =>
    have hstep : globMatch ('*' :: ps) (c :: cs)
        = (globMatch ps (c :: cs) || globMatch ('*' :: ps) cs) := by
      simp [globMatch]
    constructor
    · intro h
      rw [hstep, Bool.or_eq_true] at h
      rcases h with h | h
      · exact ⟨[], c :: cs, rfl, h⟩
      · rcases ih.mp h with ⟨s1, s2, heq, hm⟩
        exact ⟨c :: s1, s2, by rw [heq, List.cons_append], hm⟩
    · rintro ⟨s1, s2, heq, hm⟩
      rw [hstep, Bool.or_eq_true]
      cases s1 with
      | nil =>
        left
        rw [List.nil_append] at heq
        rw [heq]
        exact hm
      | cons d ds =>
        right
        rw [List.cons_append] at heq
        injection heq with h1 h2
        exact ih.mpr ⟨ds, s2, h2, hm⟩

/-- Claim C1 as frozen is false: for the single pattern `a*c` and the
relative key `a/c`, the source's compiled filter accepts — Python
`fnmatch`'s `*` matches across path separators and the native path applies
no trailing-wildcard rewrite — while the claim's described semantics,
where a non-trailing `*` matches only within a single path segment,
rejects, so the stated "if and only if" fails at this input. -/
theorem c1_counterexample :
    keptByFilter (buildMatchPats [['a', '*', 'c']]) ['a', '/', 'c'] = true ∧
    specFilterPred [['a', '*', 'c']] ['a', '/', 'c'] = false := by
  constructor
  · simp [keptByFilter, buildMatchPats, startsWithCh, globMatch]
  · simp [specFilterPred, specRewrite, lstripSlash, specGlob]

/-- Claim C1 (amended): the compiled filter accepts a relative key iff the
pattern list is empty or the key matches at least one pattern (logical OR)
under Python `fnmatch` glob semantics, each pattern first having its
leading path separators stripped; no trailing-wildcard rewrite is applied
in the native path, and `*` matches any run of characters including path
separators — which is why a trailing `*` already matches the folder's
contents at every nested depth, as the second conjunct shows. -/
theorem c1_filter_amended (folders : List Chars) (rel : Chars) :
    (keptByFilter (buildMatchPats folders) rel = true ↔
      folders = [] ∨ ∃ f, f ∈ folders ∧ globMatch (lstripSlash f) rel = true) ∧
    (∀ ps s, globMatch ('*' :: ps) s = true ↔
      ∃ s1 s2, s = s1 ++ s2 ∧ globMatch ps s2 = true) :=
  ⟨keptByFilter_build_iff folders rel, fun ps s => globMatch_star ps s⟩

theorem taskFor_some_iff (bucket pfx target : Chars) (pats : List Chars)
    (key : Chars) (t : DownloadTask) :
    taskFor bucket pfx target pats key = some t ↔
      startsWithCh pfx key = true ∧ relKey pfx key ≠ [] ∧
      keptByFilter pats (relKey pfx key) = true ∧
      t = { bucket := bucket, key := key,
            localFile := osPathJoin target (relKey pfx key) } := by
  cases hs : startsWithCh pfx key with
  | false => simp [taskFor, hs]
  | true =>
    cases he : (relKey pfx key).isEmpty with
    | true =>
      simp [taskFor, hs, he, List.isEmpty_iff.mp he]
    | false =>
      cases hk : keptByFilter pats (relKey pfx key) with
      | false => simp [taskFor, hs, he, hk]
      | true =>
        simp [taskFor, hs, he, hk, List.isEmpty_eq_false.mp he, eq_comm]

theorem planTasks_inner (bucket pfx target : Chars) (pats : List Chars)
    (page : List Chars) (acc : List DownloadTask) :
    page.foldl
      (fun acc2 key =>
        match taskFor bucket pfx target pats key with
        | none => acc2
        | some t => acc2 ++ [t]) acc
      = acc ++ planPageSpec bucket pfx target pats page := by
  induction page generalizing acc with
  | nil => simp [planPageSpec]
  | cons k ks ih =>
    rw [List.foldl_cons]
    cases h : taskFor bucket pfx target pats k with
    | none =>
      rw [ih]
      simp only [planPageSpec, List.filterMap_cons, h]
    | some t =>
      rw [ih]
      simp only [planPageSpec, List.filterMap_cons, h]
      simp [List.append_assoc]

theorem planTasks_eq (bucket pfx target : Chars) (pats : List Chars)
    (pages : List (List Chars)) :
    planTasks bucket pfx target pats pages
      = (pages.map (planPageSpec bucket pfx target pats)).flatten := by
  suffices hgen : ∀ acc : List DownloadTask,
      pages.foldl
        (fun acc page =>
          page.foldl
            (fun acc2 key =>
              match taskFor bucket pfx target pats key with
              | none => acc2
              | some t => acc2 ++ [t])
            acc)
        acc
      = acc ++ (pages.map (planPageSpec bucket pfx target pats)).flatten by
    have h := hgen []
    rw [List.nil_append] at h
    exact h
  induction pages with
  | nil => intro acc; simp
  | cons pg pgs ih =>
    intro acc
    rw [List.foldl_cons, planTasks_inner, ih, List.map_cons, List.flatten_cons,
      List.append_assoc]

/-- Claim C6: the planner's task sequence equals the in-order
concatenation, over pages in page order, of the per-page accepted tasks,
and every planned task comes from a listed key that starts with the key
head, has a non-empty relative key accepted by the filter, and has its
destination equal to the target directory joined with the relative key —
the relative-key computation being the same expression whatever the page
boundary. -/
theorem c6_planner (bucket pfx target : Chars) (pats : List Chars)
    (pages : List (List Chars)) :
    planTasks bucket pfx target pats pages
      = (pages.map (planPageSpec bucket pfx target pats)).flatten ∧
    (∀ t, t ∈ planTasks bucket pfx target pats pages →
      ∃ key, key ∈ pages.flatten ∧ startsWithCh pfx key = true ∧
        relKey pfx key ≠ [] ∧ keptByFilter pats (relKey pfx key) = true ∧
        t = { bucket := bucket, key := key,
              localFile := osPathJoin target (relKey pfx key) }) := by
  have hflat := planTasks_eq bucket pfx target pats pages
  refine ⟨hflat, ?_⟩
  intro t ht
  rw [hflat, List.mem_flatten] at ht
  rcases ht with ⟨l, hl, htl⟩
  rw [List.mem_map] at hl
  rcases hl with ⟨page, hpage, rfl⟩
  rw [planPageSpec, List.mem_filterMap] at htl
  rcases htl with ⟨key, hkey, hsome⟩
  rcases (taskFor_some_iff bucket pfx target pats key t).mp hsome with ⟨h1, h2, h3, h4⟩
  exact ⟨key, List.mem_flatten.mpr ⟨page, hpage, hkey⟩, h1, h2, h3, h4⟩

theorem dropWhile_head_false {α : Type} (p : α → Bool) (l : List α) (a : α)
    (r : List α) (h : l.dropWhile p = a :: r) : p a = false := by
  induction l with
  | nil => simp at h
  | cons x xs ih =>
    rw [List.dropWhile_cons] at h
    by_cases hx : p x = true
    · rw [if_pos hx] at h
      exact ih h
    · rw [if_neg hx] at h
      injection h with h1 _
      rw [← h1]
      exact Bool.eq_false_iff.mpr hx

theorem runDownloads_fail (ok : DownloadTask → Bool) (tasks : List DownloadTask)
    (att : List Chars) (evs : List FsEvent) (done : Nat)
    (tf : DownloadTask) (rest : List DownloadTask)
    (h : tasks.dropWhile ok = tf :: rest) :
    runDownloads ok tasks att evs done
      = (some tf.key,
         att ++ (tasks.takeWhile ok).map DownloadTask.key ++ [tf.key],
         evs ++ ((tasks.takeWhile ok).map
             (fun t => [FsEvent.mkdirs (dirname t.localFile),
                        FsEvent.wroteFile t.localFile])).flatten
           ++ [FsEvent.mkdirs (dirname tf.localFile)],
         done + (tasks.takeWhile ok).length) := by
  induction tasks generalizing att evs done with
  | nil => simp at h
  | cons t ts ih =>
    rw [List.dropWhile_cons] at h
    cases hok : ok t with
    | true =>
      rw [if_pos hok] at h
      rw [List.takeWhile_cons, if_pos hok]
      simp only [runDownloads, hok, if_true]
      rw [ih _ _ _ h]
      simp [List.append_assoc, Nat.add_assoc, Nat.add_comm 1]
    | false =>
      rw [if_neg (by simp [hok])] at h
      injection h with h1 h2
      subst h1
      rw [List.takeWhile_cons, if_neg (by simp [hok])]
      simp [runDownloads, hok]

/-- Claim C3: with at least one failing download in the plan, the native
run ends failed, carrying exactly the key of the first failing task in
plan order; each attempted key is attempted once, the attempt list being a
sublist of the plan's keys (no retry); the files completed before the
failure are still present in the final event trace (no rollback — the
model has no deletion event at all), and the completed counter equals the
number of tasks that finished before the failing one. -/
theorem c3_failure_aborts (ok : DownloadTask → Bool) (tasks : List DownloadTask)
    (hfail : ∃ t, t ∈ tasks ∧ ok t = false) :
    ∃ tf rest, tasks.dropWhile ok = tf :: rest ∧ ok tf = false ∧ tf ∈ tasks ∧
      (execTasks ok tasks).outcome = NativeOutcome.failed tf.key ∧
      (execTasks ok tasks).attempts
        = (tasks.takeWhile ok).map DownloadTask.key ++ [tf.key] ∧
      (execTasks ok tasks).attempts.Sublist (tasks.map DownloadTask.key) ∧
      (execTasks ok tasks).events
        = ((tasks.takeWhile ok).map
            (fun t => [FsEvent.mkdirs (dirname t.localFile),
                       FsEvent.wroteFile t.localFile])).flatten
          ++ [FsEvent.mkdirs (dirname tf.localFile)] ∧
      (execTasks ok tasks).completedCount = (tasks.takeWhile ok).length := by
  have hne : tasks.dropWhile ok ≠ [] := by
    rw [Ne, List.dropWhile_eq_nil_iff]
    intro hall
    rcases hfail with ⟨t, ht, hf⟩
    rw [hall t ht] at hf
    exact Bool.noConfusion hf
  cases hdw : tasks.dropWhile ok with
  | nil => exact absurd hdw hne
  | cons tf rest =>
    have hoktf : ok tf = false := dropWhile_head_false ok tasks tf rest hdw
    have htf_mem : tf ∈ tasks :=
      (List.dropWhile_sublist ok).subset (by rw [hdw]; exact List.mem_cons_self tf rest)
    have htasks_ne : ¬tasks.length = 0 := by
      intro h0
      rw [List.length_eq_zero.mp h0] at hdw
      simp at hdw
    have hrun := runDownloads_fail ok tasks [] [] 0 tf rest hdw
    have hexec : execTasks ok tasks
        = { listedStorage := true,
            attempts := [] ++ (tasks.takeWhile ok).map DownloadTask.key ++ [tf.key],
            events := [] ++ ((tasks.takeWhile ok).map
                (fun t => [FsEvent.mkdirs (dirname t.localFile),
                           FsEvent.wroteFile t.localFile])).flatten
              ++ [FsEvent.mkdirs (dirname tf.localFile)],
            completedCount := 0 + (tasks.takeWhile ok).length,
            outcome := NativeOutcome.failed tf.key } := by
      unfold execTasks
      rw [if_neg htasks_ne, hrun]
    have hmap : tasks.map DownloadTask.key
        = (tasks.takeWhile ok).map DownloadTask.key
          ++ (tf.key :: rest.map DownloadTask.key) := by
      conv_lhs => rw [← List.takeWhile_append_dropWhile ok tasks]
      rw [hdw, List.map_append, List.map_cons]
    refine ⟨tf, rest, rfl, hoktf, htf_mem, ?_, ?_, ?_, ?_, ?_⟩
    · rw [hexec]
    · rw [hexec]
      simp
    · rw [hexec, hmap]
      simp only [List.nil_append]
      exact List.Sublist.append_left
        (List.cons_sublist_cons.mpr (List.nil_sublist (rest.map DownloadTask.key)))
        ((tasks.takeWhile ok).map DownloadTask.key)
    · rw [hexec]
      simp
    · rw [hexec]
      simp

/-- Witness for C3 at a concrete two-task plan whose second download
fails. -/
theorem c3_witness :
    ∃ tf rest, tasksC3.dropWhile okC3 = tf :: rest ∧ okC3 tf = false ∧ tf ∈ tasksC3 ∧
      (execTasks okC3 tasksC3).outcome = NativeOutcome.failed tf.key ∧
      (execTasks okC3 tasksC3).attempts
        = (tasksC3.takeWhile okC3).map DownloadTask.key ++ [tf.key] ∧
      (execTasks okC3 tasksC3).attempts.Sublist (tasksC3.map DownloadTask.key) ∧
      (execTasks okC3 tasksC3).events
        = ((tasksC3.takeWhile okC3).map
            (fun t => [FsEvent.mkdirs (dirname t.localFile),
                       FsEvent.wroteFile t.localFile])).flatten
          ++ [FsEvent.mkdirs (dirname tf.localFile)] ∧
      (execTasks okC3 tasksC3).completedCount = (tasksC3.takeWhile okC3).length :=
  c3_failure_aborts okC3 tasksC3
    ⟨{ bucket := ['b'], key := ['k', '2'], localFile := ['t', '/', 'k', '2'] },
     by decide, by decide⟩

theorem fetchManifest_not200 (status : Nat) (body : RespJson)
    (hst : ¬status = 200) :
    fetchManifest (HttpResult.ok status body)
      = Except.error (ReplicateError.authError (body.error.getD unknownErrorMsg)) := by
  simp [fetchManifest, hst]

theorem fetchManifest_ok200_none (body : RespJson) (hd : body.data = none) :
    fetchManifest (HttpResult.ok 200 body)
      = Except.error (ReplicateError.protocolError missingDataMsg) := by
  simp [fetchManifest, hd]

theorem fetchManifest_ok200_creds (body : RespJson) (d : DataField)
    (hd : body.data = some d)
    (hc : (truthyStr d.access_key_id && truthyStr d.secret_access_key
        && truthyStr body.data_path) = false) :
    fetchManifest (HttpResult.ok 200 body)
      = Except.error (ReplicateError.protocolError missingCredsMsg) := by
  simp [fetchManifest, hd, hc]

theorem fetchManifest_ok200_good (body : RespJson) (d : DataField)
    (hd : body.data = some d)
    (hc : (truthyStr d.access_key_id && truthyStr d.secret_access_key
        && truthyStr body.data_path) = true) :
    fetchManifest (HttpResult.ok 200 body)
      = Except.ok
          { access_key_id := d.access_key_id.getD [],
            secret_access_key := d.secret_access_key.getD [],
            data_path := normalizeDataPath (body.data_path.getD []),
            folders := body.folders,
            endpoint := body.endpoint.getD defaultEndpoint,
            region := body.region.getD defaultRegion } := by
  simp [fetchManifest, hd, hc]

/-- Claim C4: whenever the credential fetch fails, the run ends failed
with exactly that error — no delegated-tool invocation, no listing and no
transfer happen (the `failedFetch` terminal carries no native trace) — and
the error class corresponds to the failure: a transport failure gives a
network error, a non-200 status gives an auth error carrying the error
payload, and a 200 response gives a protocol error, for a missing data
object or missing credentials or data path. -/
theorem c4_fetch_failure_aborts (useRclone rclonePresent boto3Avail : Bool)
    (ok : DownloadTask → Bool) (target : Chars) (pages : List (List Chars))
    (resp : HttpResult) (e : ReplicateError)
    (h : fetchManifest resp = Except.error e) :
    replicate useRclone rclonePresent boto3Avail ok resp target pages
      = { fallbackLogged := useRclone && !rclonePresent,
          path := RunPath.failedFetch e } ∧
    errClassOf resp e := by
  constructor
  · simp only [replicate, h]
  · cases resp with
    | requestFailed m =>
      simp only [fetchManifest] at h
      simp only [errClassOf]
      exact (Except.error.inj h).symm
    | ok status body =>
      simp only [errClassOf]
      by_cases hst : status = 200
      · subst hst
        rw [if_pos rfl]
        cases hdata : body.data with
        | none =>
          rw [fetchManifest_ok200_none body hdata] at h
          left
          exact ⟨(Except.error.inj h).symm, rfl⟩
        | some d =>
          cases hc : (truthyStr d.access_key_id && truthyStr d.secret_access_key
              && truthyStr body.data_path) with
          | true =>
            rw [fetchManifest_ok200_good body d hdata hc] at h
            exact absurd h (by simp)
          | false =>
            right
            rw [fetchManifest_ok200_creds body d hdata hc] at h
            exact (Except.error.inj h).symm
      · rw [if_neg hst]
        rw [fetchManifest_not200 status body hst] at h
        exact (Except.error.inj h).symm

/-- Witness for C4 at a concrete transport failure. -/
theorem c4_witness :
    replicate true false true okTrue respC4 ['t'] []
      = { fallbackLogged := true && !false,
          path := RunPath.failedFetch (ReplicateError.networkError ['t', 'o']) } ∧
    errClassOf respC4 (ReplicateError.networkError ['t', 'o']) :=
  c4_fetch_failure_aborts true false true okTrue ['t'] [] respC4
    (ReplicateError.networkError ['t', 'o']) rfl

/-- Claim C5: once the manifest is extracted, the delegated rclone path is
taken iff the caller requested rclone and the executable is present; when
rclone was requested but absent, the fallback reason has been logged and
the run proceeds through the native planning and transfer path instead of
erroring. -/
theorem c5_path_selection (useRclone rclonePresent boto3Avail : Bool)
    (ok : DownloadTask → Bool) (target : Chars) (pages : List (List Chars))
    (resp : HttpResult) (m : Manifest)
    (h : fetchManifest resp = Except.ok m) :
    ((replicate useRclone rclonePresent boto3Avail ok resp target pages).path
        = RunPath.delegated ↔ (useRclone && rclonePresent) = true) ∧
    ((useRclone && !rclonePresent) = true →
      replicate useRclone rclonePresent boto3Avail ok resp target pages
        = { fallbackLogged := true,
            path := RunPath.native
              (replicateNative boto3Avail ok m.data_path target m.folders pages) }) := by
  simp only [replicate, h]
  cases useRclone with
  | false => simp
  | true =>
    cases rclonePresent with
    | false => simp
    | true => simp

/-- Witness for C5 at a concrete run where rclone is requested but
absent. -/
theorem c5_witness :
    ((replicate true false true okTrue respC5 ['t'] []).path
        = RunPath.delegated ↔ (true && false) = true) ∧
    ((true && !false) = true →
      replicate true false true okTrue respC5 ['t'] []
        = { fallbackLogged := true,
            path := RunPath.native
              (replicateNative true okTrue manifestC5.data_path ['t']
                manifestC5.folders []) }) :=
  c5_path_selection true false true okTrue ['t'] [] respC5 manifestC5 rfl

end DataUnifier
